import Mathlib

/-
Verification of the WebSocket bridge server
(`WebSocketService`, src/extension/websocket/node/websocketService.ts).

The embedding models:
  * the JSON values produced by JSON.parse, with JavaScript truthiness and
    property access (property access on null throws a TypeError);
  * the per-message handler installed by start() on each connection
    (the ws "message" listener), as a function from the parse outcome and
    the dispatch outcome to the frames sent back and the dispatcher call made;
  * broadcast(), as a fold over the registry of connected clients;
  * the lifecycle (start/stop/isRunning/getPort) over an explicit service
    state, with the asynchronous completion of listen/close modelled as
    separate phases so that the in-flight windows are observable.
-/

namespace WsService

/-- A JSON value as returned by a successful JSON.parse. -/
inductive Json where
  | null
  | bool (b : Bool)
  | num (n : Int)
  | str (s : String)
  | arr (elems : List Json)
  | obj (fields : List (String × Json))

/-- JavaScript truthiness of a JSON value (null, false, 0 and "" are falsy;
arrays and objects are always truthy). -/
def Json.truthy : Json → Bool
  | .null => false
  | .bool b => b
  | .num n => n != 0
  | .str s => s != ""
  | .arr _ => true
  | .obj _ => true

/-- First binding of a key in an object literal (keys of a parsed JSON object
are unique). -/
def lookupField : List (String × Json) → String → Option Json
  | [], _ => none
  | (k, v) :: rest, key => if k == key then some v else lookupField rest key

/-- JavaScript property access `data.key`: throws a TypeError on null,
yields undefined (`none`) on primitives and on objects lacking the key. -/
def getProp : Json → String → Except Unit (Option Json)
  | .null, _ => .error ()
  | .obj fields, key => .ok (lookupField fields key)
  | _, _ => .ok none

/-- Strict equality `v === "s"` of a possibly-undefined value with a string
literal. -/
def isStr : Option Json → String → Bool
  | some (.str x), s => x == s
  | _, _ => false

/-- Truthiness of a possibly-undefined value (undefined is falsy). -/
def truthyOpt : Option Json → Bool
  | none => false
  | some j => j.truthy

/-- One outbound frame, the object passed to JSON.stringify in ws.send. -/
structure Frame where
  type : String
  status : String
  message : String
deriving DecidableEq, Repr

def chatStartedFrame : Frame :=
  { type := "chat_started", status := "success", message := "Chat session initiated" }

def chatOpenedFrame : Frame :=
  { type := "chat_opened", status := "success", message := "Chat opened successfully" }

def clearStartedFrame : Frame :=
  { type := "clear_started", status := "success", message := "Clearing chat history..." }

def clearCompletedFrame : Frame :=
  { type := "clear_completed", status := "success", message := "Chat history cleared successfully" }

/-- The unrecognized-message error frame (else branch of the tag dispatch). -/
def invalidFormatFrame : Frame :=
  { type := "error", status := "error",
    message := "Invalid message format. Expected: \x7btype: \"chat\", message: \"your message\"\x7d or \x7btype: \"clear_history\"\x7d" }

/-- The generic error frame sent by the handler-level catch block. -/
def errorGenericFrame : Frame :=
  { type := "error", status := "error", message := "Failed to process message" }

/-- A call made across the Command Dispatcher boundary
(vscode.commands.executeCommand). -/
inductive DispatchCall where
  | openChat (query : Option Json)
  | clearHistory

/-- Whether the awaited dispatcher invocation resolves or throws. -/
inductive DispatchOutcome where
  | success
  | failure
deriving DecidableEq

/-- Outcome of JSON.parse on the inbound payload. -/
inductive ParseResult where
  | ok (data : Json)
  | fail

/-- What one run of the ws "message" listener does: the frames sent to the
originating connection in order, the dispatcher call made (if any), and
whether the catch block logged an error. -/
structure HandlerResult where
  frames : List Frame
  dispatched : Option DispatchCall
  logged : Bool

/-- Result of the handler-level catch block: log, send the generic error. -/
def catchResult : HandlerResult :=
  { frames := [errorGenericFrame], dispatched := none, logged := true }

/-- The else-if chain after the chat guard failed: `data.type === "clear_history"`,
else the unrecognized-message error. -/
def elseBranches (ty : Option Json) (d : DispatchOutcome) : HandlerResult :=
  if isStr ty "clear_history" then
    match d with
    | .success =>
        { frames := [clearStartedFrame, clearCompletedFrame],
          dispatched := some .clearHistory, logged := false }
    | .failure =>
        { frames := [clearStartedFrame, errorGenericFrame],
          dispatched := some .clearHistory, logged := true }
  else
    { frames := [invalidFormatFrame], dispatched := none, logged := false }

/-- The body of the ws "message" listener: JSON.parse, then
`data.type === "chat" && data.message`, then the else-if chain, all wrapped
in the try/catch that logs and sends the generic error frame. -/
def handleMessage (p : ParseResult) (d : DispatchOutcome) : HandlerResult :=
  match p with
  | .fail => catchResult
  | .ok data =>
    match getProp data "type" with
    | .error _ => catchResult
    | .ok ty =>
      if isStr ty "chat" then
        match getProp data "message" with
        | .error _ => catchResult
        | .ok m =>
          if truthyOpt m then
            match d with
            | .success =>
                { frames := [chatStartedFrame, chatOpenedFrame],
                  dispatched := some (.openChat m), logged := false }
            | .failure =>
                { frames := [chatStartedFrame, errorGenericFrame],
                  dispatched := some (.openChat m), logged := true }
          else
            elseBranches ty d
      else
        elseBranches ty d

/-- The inbound chat frame `\x7b"type":"chat","message":msg\x7d`. -/
def chatFrameJson (msg : String) : Json :=
  .obj [("type", .str "chat"), ("message", .str msg)]

/-- The handler closure only ever calls ws.send on the connection it was
installed for: tag every sent frame with the originating connection id. -/
def processOn (c : Nat) (p : ParseResult) (d : DispatchOutcome) : List (Nat × Frame) :=
  (handleMessage p d).frames.map (fun f => (c, f))

/-- Frames a given connection receives from a list of tagged sends. -/
def framesFor (target : Nat) (sends : List (Nat × Frame)) : List Frame :=
  (sends.filter (fun pr => pr.1 == target)).map Prod.snd

/-- Transport state of one WebSocket (the readyState constants). -/
inductive ReadyState where
  | CONNECTING
  | OPEN
  | CLOSING
  | CLOSED
deriving DecidableEq, Repr

/-- One tracked client connection: identity, transport state, and whether
client.send succeeds (or throws) when attempted. -/
structure Client where
  id : Nat
  readyState : ReadyState
  sendOk : Bool
deriving DecidableEq, Repr

/-- Result of one broadcast call: the registry afterwards, the ids that were
delivered to in iteration order, and how many times JSON.stringify ran. -/
structure BroadcastResult where
  remaining : List Client
  delivered : List Nat
  serializeCount : Nat
deriving DecidableEq, Repr

/-- The forEach loop of broadcast: a client in the OPEN state is sent to
(and removed from the registry if the send throws); a client in any other
state is skipped and kept. -/
def broadcastLoop : List Client → List Client × List Nat
  | [] => ([], [])
  | client :: rest =>
    let r := broadcastLoop rest
    if client.readyState = ReadyState.OPEN then
      if client.sendOk then (client :: r.1, client.id :: r.2)
      else (r.1, r.2)
    else (client :: r.1, r.2)

/-- broadcast(message): JSON.stringify runs exactly once, before the loop. -/
def broadcast (clients : List Client) : BroadcastResult :=
  { remaining := (broadcastLoop clients).1
    delivered := (broadcastLoop clients).2
    serializeCount := 1 }

/-- Whether a start() promise settles with a successful bind or a listen
error (for example EADDRINUSE). -/
inductive BindOutcome where
  | ok
  | err (e : String)

/-- The mutable fields of the WebSocketService instance, together with
book-keeping for the asynchronous windows: `pendingBind` is set while a
listen callback has not yet fired, `pendingClose` while a close callback has
not yet fired, and `bindAttempts` counts how many times server.listen was
called on the configured port. -/
structure ServiceState where
  hasServer : Bool
  hasWss : Bool
  port : Nat
  isActive : Bool
  connectedClients : List Client
  pendingBind : Bool
  pendingClose : Bool
  bindAttempts : Nat
deriving DecidableEq, Repr

/-- The state right after the constructor runs: port 3001, inactive, no
server, empty registry. -/
def initialState : ServiceState :=
  { hasServer := false, hasWss := false, port := 3001, isActive := false,
    connectedClients := [], pendingBind := false, pendingClose := false,
    bindAttempts := 0 }

/-- What the synchronous prefix of a start() call did. -/
inductive StartEffect where
  | immediate
  | bindInitiated
deriving DecidableEq, Repr

/-- The synchronous prefix of start(): the `if (this.isActive) return;` guard,
else create the http server and the WebSocketServer and call listen. -/
def startPhase1 (s : ServiceState) : ServiceState × StartEffect :=
  if s.isActive then (s, .immediate)
  else
    ({ s with hasServer := true, hasWss := true, pendingBind := true,
              bindAttempts := s.bindAttempts + 1 }, .bindInitiated)

/-- The listen callback: sets isActive and resolves the promise. -/
def bindSuccess (s : ServiceState) : ServiceState :=
  { s with isActive := true, pendingBind := false }

/-- The server "error" handler: rejects the promise; isActive is never set. -/
def bindFailure (s : ServiceState) : ServiceState :=
  { s with pendingBind := false }

/-- One full run of start() to promise settlement, given the bind outcome.
On a listen error the promise rejects with the underlying error. -/
def start (s : ServiceState) (b : BindOutcome) : ServiceState × Except String Unit :=
  match startPhase1 s with
  | (s1, .immediate) => (s1, .ok ())
  | (s1, .bindInitiated) =>
    match b with
    | .ok => (bindSuccess s1, .ok ())
    | .err e => (bindFailure s1, .error e)

/-- What the synchronous prefix of a stop() call did. -/
inductive StopEffect where
  | immediate
  | closeInitiated
deriving DecidableEq, Repr

/-- The synchronous prefix of stop(): the `if (!this.isActive) return;` guard,
else initiate closing the WebSocketServer and the http server. -/
def stopPhase1 (s : ServiceState) : ServiceState × StopEffect :=
  if !s.isActive then (s, .immediate)
  else ({ s with pendingClose := true }, .closeInitiated)

/-- The innermost close callback: clear isActive, clear the registry,
resolve the promise. -/
def closeFinish (s : ServiceState) : ServiceState :=
  { s with isActive := false, connectedClients := [], pendingClose := false }

/-- One full run of stop() to promise resolution. -/
def stop (s : ServiceState) : ServiceState :=
  match stopPhase1 s with
  | (s1, .immediate) => s1
  | (s1, .closeInitiated) => closeFinish s1

def isRunning (s : ServiceState) : Bool := s.isActive

def getPort (s : ServiceState) : Nat := s.port

/-- The spec state Running: active, no close in flight. -/
def Running (s : ServiceState) : Prop :=
  s.isActive = true ∧ s.pendingClose = false

/-- The spec state Starting: a bind is in flight, isActive not yet set. -/
def Starting (s : ServiceState) : Prop :=
  s.isActive = false ∧ s.pendingBind = true

/-- The spec state Stopping: a close is in flight, isActive not yet cleared. -/
def Stopping (s : ServiceState) : Prop :=
  s.isActive = true ∧ s.pendingClose = true

/-- The spec state Stopped: inactive, nothing in flight. -/
def Stopped (s : ServiceState) : Prop :=
  s.isActive = false ∧ s.pendingBind = false ∧ s.pendingClose = false

instance (s : ServiceState) : Decidable (Running s) := by unfold Running; infer_instance
instance (s : ServiceState) : Decidable (Starting s) := by unfold Starting; infer_instance
instance (s : ServiceState) : Decidable (Stopping s) := by unfold Stopping; infer_instance
instance (s : ServiceState) : Decidable (Stopped s) := by unfold Stopped; infer_instance

/-- Running the message listener for connection `c`: the listener never
touches the service fields, and only sends to its own connection. -/
def onMessage (s : ServiceState) (c : Nat) (p : ParseResult) (d : DispatchOutcome) :
    ServiceState × List (Nat × Frame) :=
  (s, processOn c p d)

/-- Every observable operation on the service, for frame conditions. -/
inductive Op where
  | opStart (b : BindOutcome)
  | opStop
  | opBroadcast
  | opMessage (c : Nat) (p : ParseResult) (d : DispatchOutcome)
  | opConnect (client : Client)
  | opClose (id : Nat)
  | opError (id : Nat)

/-- Effect of one operation on the service state: start and stop as above;
broadcast replaces the registry by what its loop keeps; a message leaves the
state alone; the connection handler adds to the registry (a Set, so adding a
present element is a no-op); the close and error handlers delete from it. -/
def applyOp (s : ServiceState) : Op → ServiceState
  | .opStart b => (start s b).1
  | .opStop => stop s
  | .opBroadcast => { s with connectedClients := (broadcast s.connectedClients).remaining }
  | .opMessage c p d => (onMessage s c p d).1
  | .opConnect client =>
      if s.connectedClients.any (fun x => x.id == client.id) then s
      else { s with connectedClients := s.connectedClients ++ [client] }
  | .opClose i => { s with connectedClients := s.connectedClients.filter (fun x => x.id != i) }
  | .opError i => { s with connectedClients := s.connectedClients.filter (fun x => x.id != i) }

/-- Run a sequence of operations from a state. -/
def runOps (s : ServiceState) (ops : List Op) : ServiceState :=
  ops.foldl applyOp s

/-- Whether `p` is an initial segment of `s`, character by character. -/
def beginsWith (p s : String) : Bool :=
  s.data.take p.data.length == p.data

/-- A two-client registry, one open and one closed, used as a witness input. -/
def mixedClients : List Client :=
  [{ id := 0, readyState := ReadyState.OPEN, sendOk := true },
   { id := 1, readyState := ReadyState.CLOSED, sendOk := true }]

/-- A running service tracking one open connection, used as a witness input. -/
def runningWithClient : ServiceState :=
  { initialState with
    isActive := true
    connectedClients := [{ id := 0, readyState := ReadyState.OPEN, sendOk := true }] }

/- ### Helper lemmas -/

/-- On a chat frame with non-empty text and a successful dispatch, the handler
sends the two confirmations and makes the chat-open dispatcher call. -/
theorem handleMessage_chat_success_eq (msg : String) (h : msg ≠ "") :
    handleMessage (.ok (chatFrameJson msg)) .success =
      { frames := [chatStartedFrame, chatOpenedFrame],
        dispatched := some (.openChat (some (.str msg))), logged := false } := by
  have ht : (msg != "") = true := bne_iff_ne.mpr h
  simp [handleMessage, chatFrameJson, getProp, lookupField, isStr, truthyOpt,
    Json.truthy, ht]

/-- On a chat frame with non-empty text and a throwing dispatch, the handler
sends the first confirmation and then the generic error, and logs. -/
theorem handleMessage_chat_failure_eq (msg : String) (h : msg ≠ "") :
    handleMessage (.ok (chatFrameJson msg)) .failure =
      { frames := [chatStartedFrame, errorGenericFrame],
        dispatched := some (.openChat (some (.str msg))), logged := true } := by
  have ht : (msg != "") = true := bne_iff_ne.mpr h
  simp [handleMessage, chatFrameJson, getProp, lookupField, isStr, truthyOpt,
    Json.truthy, ht]

/-- The originating connection receives exactly the frames the handler sent. -/
theorem framesFor_self (c : Nat) (fs : List Frame) :
    framesFor c (fs.map (fun f => (c, f))) = fs := by
  induction fs with
  | nil => rfl
  | cons a t ih => simpa [framesFor, List.filter_cons] using ih

/-- A different connection receives none of the frames the handler sent. -/
theorem framesFor_other (c c' : Nat) (h : c' ≠ c) (fs : List Frame) :
    framesFor c' (fs.map (fun f => (c, f))) = [] := by
  have hb : (c == c') = false := beq_eq_false_iff_ne.mpr (Ne.symm h)
  induction fs with
  | nil => rfl
  | cons a t ih => simpa [framesFor, List.filter_cons, hb] using ih

/- ### Claim theorems -/

/-- C1: a connection that sends the inbound frame with type chat and any
non-empty text, with a successful dispatcher invocation, receives exactly
chat_started (Acknowledged) followed by chat_opened (Completed), in that
order, and no other connection receives any frame from that message. -/
theorem chat_success_ack_then_completed (msg : String) (h : msg ≠ "")
    (c c' : Nat) (hne : c' ≠ c) :
    framesFor c (processOn c (.ok (chatFrameJson msg)) .success) =
      [chatStartedFrame, chatOpenedFrame] ∧
    framesFor c' (processOn c (.ok (chatFrameJson msg)) .success) = [] := by
  have hm := handleMessage_chat_success_eq msg h
  constructor
  · rw [processOn, hm]; exact framesFor_self c _
  · rw [processOn, hm]; exact framesFor_other c c' hne _

theorem chat_success_ack_then_completed_witness :
    ("hello" ≠ "") ∧ ((1 : Nat) ≠ 0) ∧
    (framesFor 0 (processOn 0 (.ok (chatFrameJson "hello")) .success) =
        [chatStartedFrame, chatOpenedFrame] ∧
      framesFor 1 (processOn 0 (.ok (chatFrameJson "hello")) .success) = []) :=
  ⟨by decide, by decide,
    chat_success_ack_then_completed "hello" (by decide) 0 1 (by decide)⟩

/-- C2 counterexample: on a non-parseable payload the handler-level catch
sends the generic error frame, whose message is "Failed to process message"
and does not begin with "Invalid message format". -/
theorem malformed_payload_not_invalid_format_frame :
    (handleMessage .fail .success).frames = [errorGenericFrame] ∧
    errorGenericFrame.message = "Failed to process message" ∧
    beginsWith "Invalid message format" errorGenericFrame.message = false := by
  refine ⟨rfl, rfl, ?_⟩
  decide

/-- C2 amended: a non-parseable payload is caught before any tag dispatch;
the originating connection receives exactly one error frame, the generic
"Failed to process message" frame (not the "Invalid message format..." one);
no dispatcher call is made, no other connection receives anything, and the
service state (hence the registry and the connection itself) is untouched,
so the connection remains open and usable for subsequent messages. -/
theorem malformed_payload_single_generic_error (d : DispatchOutcome)
    (s : ServiceState) (c c' : Nat) (hne : c' ≠ c) :
    framesFor c (processOn c .fail d) = [errorGenericFrame] ∧
    framesFor c' (processOn c .fail d) = [] ∧
    (handleMessage .fail d).dispatched = none ∧
    (onMessage s c .fail d).1 = s := by
  refine ⟨?_, ?_, rfl, rfl⟩
  · exact framesFor_self c _
  · exact framesFor_other c c' hne _

theorem malformed_payload_single_generic_error_witness :
    ((1 : Nat) ≠ 0) ∧
    (framesFor 0 (processOn 0 .fail .success) = [errorGenericFrame] ∧
      framesFor 1 (processOn 0 .fail .success) = [] ∧
      (handleMessage .fail .success).dispatched = none ∧
      (onMessage initialState 0 .fail .success).1 = initialState) :=
  ⟨by decide,
    malformed_payload_single_generic_error .success initialState 0 1 (by decide)⟩

/-- C6: when the dispatcher invocation throws on a chat message, the
originating connection receives chat_started followed by the generic error
frame, never chat_opened; the failure is logged, no other connection
receives anything, and the service state is untouched. -/
theorem chat_dispatch_failure_generic_error (msg : String) (h : msg ≠ "")
    (s : ServiceState) (c c' : Nat) (hne : c' ≠ c) :
    framesFor c (processOn c (.ok (chatFrameJson msg)) .failure) =
      [chatStartedFrame, errorGenericFrame] ∧
    chatOpenedFrame ∉ framesFor c (processOn c (.ok (chatFrameJson msg)) .failure) ∧
    (handleMessage (.ok (chatFrameJson msg)) .failure).logged = true ∧
    framesFor c' (processOn c (.ok (chatFrameJson msg)) .failure) = [] ∧
    (onMessage s c (.ok (chatFrameJson msg)) .failure).1 = s := by
  have hm := handleMessage_chat_failure_eq msg h
  have h1 : framesFor c (processOn c (.ok (chatFrameJson msg)) .failure) =
      [chatStartedFrame, errorGenericFrame] := by
    rw [processOn, hm]; exact framesFor_self c _
  refine ⟨h1, ?_, by rw [hm], ?_, rfl⟩
  · rw [h1]; decide
  · rw [processOn, hm]; exact framesFor_other c c' hne _

theorem chat_dispatch_failure_generic_error_witness :
    ("hello" ≠ "") ∧ ((1 : Nat) ≠ 0) ∧
    (framesFor 0 (processOn 0 (.ok (chatFrameJson "hello")) .failure) =
        [chatStartedFrame, errorGenericFrame] ∧
      chatOpenedFrame ∉ framesFor 0 (processOn 0 (.ok (chatFrameJson "hello")) .failure) ∧
      (handleMessage (.ok (chatFrameJson "hello")) .failure).logged = true ∧
      framesFor 1 (processOn 0 (.ok (chatFrameJson "hello")) .failure) = [] ∧
      (onMessage initialState 0 (.ok (chatFrameJson "hello")) .failure).1 = initialState) :=
  ⟨by decide, by decide,
    chat_dispatch_failure_generic_error "hello" (by decide) initialState 0 1 (by decide)⟩

/-- C10: a parseable frame whose type field strictly equals "chat" but whose
message field is absent, empty or otherwise falsy falls through the chat
guard and the clear_history test into the unrecognized branch: the handler
sends the single "Invalid message format..." error frame and never invokes
the dispatcher. -/
theorem chat_falsy_message_treated_unrecognized (data : Json) (ty m : Option Json)
    (d : DispatchOutcome)
    (hty : getProp data "type" = .ok ty) (hchat : isStr ty "chat" = true)
    (hm : getProp data "message" = .ok m) (hfalsy : truthyOpt m = false) :
    handleMessage (.ok data) d =
      { frames := [invalidFormatFrame], dispatched := none, logged := false } := by
  obtain ⟨x, hx, hxeq⟩ : ∃ x, ty = some (Json.str x) ∧ x = "chat" := by
    match ty, hchat with
    | some (Json.str x), hc => exact ⟨x, rfl, by simpa [isStr] using hc⟩
  subst hxeq; subst hx
  simp [handleMessage, hty, hm, hfalsy, elseBranches, isStr]

theorem chat_falsy_message_treated_unrecognized_witness :
    (getProp (Json.obj [("type", .str "chat"), ("message", .str "")]) "type" =
        .ok (some (.str "chat"))) ∧
    (isStr (some (.str "chat")) "chat" = true) ∧
    (getProp (Json.obj [("type", .str "chat"), ("message", .str "")]) "message" =
        .ok (some (.str ""))) ∧
    (truthyOpt (some (.str "")) = false) ∧
    (handleMessage (.ok (Json.obj [("type", .str "chat"), ("message", .str "")])) .success =
      { frames := [invalidFormatFrame], dispatched := none, logged := false }) :=
  ⟨rfl, rfl, rfl, rfl,
    chat_falsy_message_treated_unrecognized
      (Json.obj [("type", .str "chat"), ("message", .str "")])
      (some (.str "chat")) (some (.str "")) .success rfl rfl rfl rfl⟩

/-- Characterization of the broadcast loop: a client is kept unless it is
OPEN with a throwing send; a client is delivered to exactly when it is OPEN
with a working send. -/
theorem broadcastLoop_spec (clients : List Client) :
    (broadcastLoop clients).1 =
      clients.filter (fun c => !(c.readyState == ReadyState.OPEN && !c.sendOk)) ∧
    (broadcastLoop clients).2 =
      (clients.filter (fun c => c.readyState == ReadyState.OPEN && c.sendOk)).map Client.id := by
  induction clients with
  | nil => exact ⟨rfl, rfl⟩
  | cons a t ih =>
    obtain ⟨ih1, ih2⟩ := ih
    by_cases ho : a.readyState = ReadyState.OPEN
    · by_cases hs : a.sendOk = true
      · simp [broadcastLoop, List.filter_cons, ho, hs, ih1, ih2]
      · simp only [Bool.not_eq_true] at hs
        simp [broadcastLoop, List.filter_cons, ho, hs, ih1, ih2]
    · have ho' : (a.readyState == ReadyState.OPEN) = false := by
        simpa using ho
      simp [broadcastLoop, List.filter_cons, ho, ho', ih1, ih2]

/-- C3 counterexample: a registry holding one closed connection (N = 1,
M = 0): broadcast delivers nothing, but the closed connection is not removed
from the registry, contradicting the claim that all N − M closed connections
are removed. -/
theorem broadcast_keeps_closed_connection :
    (broadcast [{ id := 0, readyState := ReadyState.CLOSED, sendOk := true }]).delivered = [] ∧
    { id := 0, readyState := ReadyState.CLOSED, sendOk := true } ∈
      (broadcast [{ id := 0, readyState := ReadyState.CLOSED, sendOk := true }]).remaining := by
  decide

/-- C3 amended: broadcast serializes the payload once; a connection is
removed by broadcast only when it is OPEN and its send throws; connections
not in the OPEN state are skipped and remain in the registry. When every
send to an OPEN connection succeeds, the payload is delivered to exactly the
M open connections, in registry order, and the registry is unchanged. -/
theorem broadcast_open_deliveries_closed_skipped (clients : List Client) :
    (broadcast clients).serializeCount = 1 ∧
    (broadcast clients).remaining =
      clients.filter (fun c => !(c.readyState == ReadyState.OPEN && !c.sendOk)) ∧
    ((∀ c ∈ clients, c.readyState = ReadyState.OPEN → c.sendOk = true) →
      (broadcast clients).delivered =
        (clients.filter (fun c => c.readyState == ReadyState.OPEN)).map Client.id ∧
      (broadcast clients).remaining = clients) := by
  obtain ⟨h1, h2⟩ := broadcastLoop_spec clients
  refine ⟨rfl, h1, fun hall => ⟨?_, ?_⟩⟩
  · have : clients.filter (fun c => c.readyState == ReadyState.OPEN && c.sendOk) =
        clients.filter (fun c => c.readyState == ReadyState.OPEN) := by
      apply List.filter_congr
      intro c hc
      by_cases ho : c.readyState = ReadyState.OPEN
      · simp [ho, hall c hc ho]
      · simp [ho]
    show (broadcastLoop clients).2 = _
    rw [h2, this]
  · have : clients.filter (fun c => !(c.readyState == ReadyState.OPEN && !c.sendOk)) =
        clients := by
      apply List.filter_eq_self.mpr
      intro c hc
      by_cases ho : c.readyState = ReadyState.OPEN
      · simp [ho, hall c hc ho]
      · simp [ho]
    show (broadcastLoop clients).1 = _
    rw [h1, this]

theorem broadcast_open_deliveries_closed_skipped_witness :
    (∀ c ∈ mixedClients, c.readyState = ReadyState.OPEN → c.sendOk = true) ∧
    ((broadcast mixedClients).delivered =
        (mixedClients.filter (fun c => c.readyState == ReadyState.OPEN)).map Client.id ∧
      (broadcast mixedClients).remaining = mixedClients) :=
  ⟨by decide,
    (broadcast_open_deliveries_closed_skipped mixedClients).2.2 (by decide)⟩

/-- C4 counterexample: a concrete Starting state (a bind in flight, isActive
not yet set). A start() call made there is not short-circuited by the
`if (this.isActive) return;` guard: it initiates a second bind of the
configured port. -/
theorem start_while_starting_initiates_second_bind :
    Starting { hasServer := true, hasWss := true, port := 3001, isActive := false,
               connectedClients := [], pendingBind := true, pendingClose := false,
               bindAttempts := 1 } ∧
    (startPhase1 { hasServer := true, hasWss := true, port := 3001, isActive := false,
                   connectedClients := [], pendingBind := true, pendingClose := false,
                   bindAttempts := 1 }).2 = StartEffect.bindInitiated ∧
    (startPhase1 { hasServer := true, hasWss := true, port := 3001, isActive := false,
                   connectedClients := [], pendingBind := true, pendingClose := false,
                   bindAttempts := 1 }).1.bindAttempts = 2 := by
  decide

/-- C4 amended: the guard of start() covers only the active (Running) state:
when isActive holds, start() returns immediately as success with the state
unchanged and no new bind attempt. While Starting (bind in flight, isActive
still false) the guard does not apply: a second start() call proceeds and
initiates one more bind of the listening port. -/
theorem start_immediate_only_when_active (s : ServiceState) (b : BindOutcome) :
    (s.isActive = true →
      startPhase1 s = (s, StartEffect.immediate) ∧ start s b = (s, Except.ok ())) ∧
    (Starting s →
      (startPhase1 s).2 = StartEffect.bindInitiated ∧
      (startPhase1 s).1.bindAttempts = s.bindAttempts + 1) := by
  constructor
  · intro h
    have h1 : startPhase1 s = (s, StartEffect.immediate) := by simp [startPhase1, h]
    exact ⟨h1, by rw [start, h1]⟩
  · rintro ⟨h1, -⟩
    simp [startPhase1, h1]

theorem start_immediate_only_when_active_witness :
    ({ initialState with isActive := true } : ServiceState).isActive = true ∧
    (startPhase1 { initialState with isActive := true } =
        ({ initialState with isActive := true }, StartEffect.immediate) ∧
      start { initialState with isActive := true } .ok =
        ({ initialState with isActive := true }, Except.ok ())) :=
  ⟨rfl, (start_immediate_only_when_active { initialState with isActive := true } .ok).1 rfl⟩

/-- C5 counterexample: a concrete Stopping state (close in flight, isActive
not yet cleared). A stop() call made there is not short-circuited by the
`if (!this.isActive) return;` guard: it initiates the close again instead of
returning immediately. -/
theorem stop_while_stopping_not_immediate :
    Stopping { hasServer := true, hasWss := true, port := 3001, isActive := true,
               connectedClients := [], pendingBind := false, pendingClose := true,
               bindAttempts := 1 } ∧
    (stopPhase1 { hasServer := true, hasWss := true, port := 3001, isActive := true,
                  connectedClients := [], pendingBind := false, pendingClose := true,
                  bindAttempts := 1 }).2 = StopEffect.closeInitiated ∧
    StopEffect.closeInitiated ≠ StopEffect.immediate := by
  decide

/-- C5 amended: while the server is inactive (Stopped), every stop() call
returns immediately as success with the state unchanged, so any sequence of
stop() calls leaves the state fixed and an empty registry stays empty. The
guard covers only the inactive state: a call made while Stopping (close in
flight, isActive still true) initiates the close again instead. -/
theorem stop_idempotent_when_stopped (s : ServiceState) (h : s.isActive = false)
    (n : Nat) :
    stopPhase1 s = (s, StopEffect.immediate) ∧
    stop^[n] s = s ∧
    (s.connectedClients = [] → (stop^[n] s).connectedClients = []) := by
  have h1 : stopPhase1 s = (s, StopEffect.immediate) := by simp [stopPhase1, h]
  have hs : stop s = s := by rw [stop, h1]
  have hiter : stop^[n] s = s := by
    induction n with
    | zero => rfl
    | succ k ih => rw [Function.iterate_succ_apply, hs, ih]
  exact ⟨h1, hiter, fun he => by rw [hiter, he]⟩

theorem stop_idempotent_when_stopped_witness :
    initialState.isActive = false ∧
    (stopPhase1 initialState = (initialState, StopEffect.immediate) ∧
      stop^[3] initialState = initialState ∧
      (initialState.connectedClients = [] → (stop^[3] initialState).connectedClients = [])) :=
  ⟨rfl, stop_idempotent_when_stopped initialState rfl 3⟩

/-- C7: when stop() is called on an active server and its promise resolves,
the registry has been cleared, and a subsequent broadcast() iterates the
empty registry and delivers to no connection — in particular no connection
that was open before the stop. -/
theorem stop_empties_registry_blocks_broadcast (s : ServiceState)
    (h : s.isActive = true) :
    (stop s).connectedClients = [] ∧
    (broadcast (stop s).connectedClients).delivered = [] := by
  have h1 : (stop s).connectedClients = [] := by
    simp [stop, stopPhase1, closeFinish, h]
  exact ⟨h1, by rw [h1]; rfl⟩

theorem stop_empties_registry_blocks_broadcast_witness :
    runningWithClient.isActive = true ∧
    ((stop runningWithClient).connectedClients = [] ∧
      (broadcast (stop runningWithClient).connectedClients).delivered = []) :=
  ⟨rfl, stop_empties_registry_blocks_broadcast runningWithClient rfl⟩

/-- C8: a start() call from the Stopped state whose bind fails rejects with
the underlying error, and the server is not running afterwards. -/
theorem start_bind_failure_rejects_with_cause (s : ServiceState) (e : String)
    (h : Stopped s) :
    (start s (.err e)).2 = Except.error e ∧
    isRunning (start s (.err e)).1 = false := by
  obtain ⟨h1, -, -⟩ := h
  constructor
  · simp [start, startPhase1, bindFailure, h1]
  · simp [start, startPhase1, bindFailure, isRunning, h1]

theorem start_bind_failure_rejects_with_cause_witness :
    Stopped initialState ∧
    ((start initialState (.err "EADDRINUSE")).2 = Except.error "EADDRINUSE" ∧
      isRunning (start initialState (.err "EADDRINUSE")).1 = false) :=
  ⟨by decide, start_bind_failure_rejects_with_cause initialState "EADDRINUSE" (by decide)⟩

/-- No operation changes the configured port. -/
theorem applyOp_port (s : ServiceState) (op : Op) : (applyOp s op).port = s.port := by
  cases op with
  | opStart b =>
    by_cases h : s.isActive = true <;>
      cases b <;>
        simp [applyOp, start, startPhase1, bindSuccess, bindFailure, h]
  | opStop =>
    by_cases h : s.isActive = true <;>
      simp [applyOp, stop, stopPhase1, closeFinish, h]
  | opBroadcast => rfl
  | opMessage c p d => rfl
  | opConnect client =>
    by_cases h : s.connectedClients.any (fun x => x.id == client.id) <;>
      simp [applyOp, h]
  | opClose i => rfl
  | opError i => rfl

/-- C9: under every sequence of operations, from any state, the port field
is never modified, and from the constructed state getPort() always returns
the default 3001 — whether or not the server is running. -/
theorem getPort_constant_through_ops (s : ServiceState) (ops : List Op) :
    getPort (runOps s ops) = getPort s ∧
    getPort (runOps initialState ops) = 3001 := by
  have key : ∀ (l : List Op) (t : ServiceState), (runOps t l).port = t.port := by
    intro l
    induction l with
    | nil => intro t; rfl
    | cons op rest ih =>
      intro t
      show (runOps (applyOp t op) rest).port = t.port
      rw [ih (applyOp t op), applyOp_port]
  exact ⟨key ops s, key ops initialState⟩

end WsService
